import Mathlib

/-!
Verification of the RAG pipeline (rag_pipeline.py, api.py).

Shallow embedding of the retrieval-augmented question-answering pipeline of
this repository: document chunking, vector-store similarity filtering,
conversation session memory, confidence scoring, and the HTTP query handler.

Conventions:
* Python floats that only ever hold exact decimal constants (confidence
  values, similarity scores and thresholds) are embedded as `ℚ`.
* Python dicts keyed by strings are embedded as association lists
  (`List (String × _)`) with insertion order preserved, mirroring the
  insertion-ordered semantics of Python dicts.
* External collaborators (nearest-neighbor search, answer synthesis) are
  passed in as explicit function parameters; the calls issued to them are
  recorded in an `ExtCall` log so that claims about "no external call"
  and about the assembled synthesis request can be stated.
-/

set_option autoImplicit false

namespace RAG

/-- Metadata attached to a loaded document by
`DocumentProcessor.load_documents_from_directory` (rag_pipeline.py:95-103):
relative source path, absolute file path, file name, and token count. -/
structure DocMetadata where
  source : String
  file_path : String
  file_name : String
  tokens : Nat
  deriving DecidableEq, Repr

/-- A loaded document: page content plus metadata (langchain `Document`
as produced by the loader). -/
structure Document where
  page_content : String
  metadata : DocMetadata
  deriving DecidableEq, Repr

/-- Metadata of a chunk: all metadata fields of the source document plus
`chunk_index` and `total_chunks`, as built by
`DocumentProcessor.chunk_documents` (rag_pipeline.py:127-131). -/
structure ChunkMetadata where
  base : DocMetadata
  chunk_index : Nat
  total_chunks : Nat
  deriving DecidableEq, Repr

/-- A chunked document (the unit of embedding and retrieval). -/
structure Chunk where
  page_content : String
  metadata : ChunkMetadata
  deriving DecidableEq, Repr

/-- `RAGConfig` (rag_pipeline.py:33-56): the tunables the claims refer to.
Model identifiers and filesystem paths are irrelevant to every claim and
omitted; defaults match the source. -/
structure RAGConfig where
  chunk_size : Nat := 1000
  chunk_overlap : Nat := 200
  top_k_results : Nat := 3
  similarity_threshold : ℚ := 0.7
  max_history_length : Nat := 5
  deriving DecidableEq, Repr

/-- `RAGPipeline._calculate_confidence` (rag_pipeline.py:354-376):
`0.0` for no sources, `0.9` for three or more, `0.7` for exactly two,
`0.5` otherwise (i.e. exactly one). -/
def calculate_confidence (source_docs : List Chunk) : ℚ :=
  if source_docs.isEmpty then 0.0
  else if 3 ≤ source_docs.length then 0.9
  else if source_docs.length = 2 then 0.7
  else 0.5

/-- Modelled from the spec: the repository delegates text splitting to an
external recursive character splitter whose implementation is not among the
sources (rag_pipeline.py:64-69 only constructs it from `chunk_size` and
`chunk_overlap`). Following §4.2 of the spec: each produced chunk is at most
`chunk_size` characters, consecutive chunks share `chunk_overlap` characters
of context, and a document that fits in one chunk is returned whole as a
single chunk. Split positions are at a fixed stride; the spec explicitly
allows lossy boundary choice, and no claim depends on where the boundaries
fall inside an oversized document. -/
def splitText (chunkSize chunkOverlap : Nat) (text : String) : List String :=
  if text.length ≤ chunkSize then [text]
  else
    let stride := max 1 (chunkSize - chunkOverlap)
    let n := (text.length - chunkSize + stride - 1) / stride + 1
    (List.range n).map (fun i => String.mk ((text.toList.drop (i * stride)).take chunkSize))

/-- `DocumentProcessor` (rag_pipeline.py:59-70): holds the configuration;
its text splitter is determined by `config.chunk_size` and
`config.chunk_overlap` alone. -/
structure DocumentProcessor where
  config : RAGConfig
  deriving DecidableEq, Repr

/-- The splitter constructed in `DocumentProcessor.__init__`
(rag_pipeline.py:64-69), as a function of the processor. -/
def DocumentProcessor.text_splitter (p : DocumentProcessor) : String → List String :=
  splitText p.config.chunk_size p.config.chunk_overlap

/-- The per-document body of the loop in `DocumentProcessor.chunk_documents`
(rag_pipeline.py:121-133), parametric in the split function: split the
content, then wrap each piece with the metadata of the document extended by
`chunk_index` and `total_chunks`. -/
def chunkOne (split : String → List String) (doc : Document) : List Chunk :=
  let chunks := split doc.page_content
  chunks.enum.map (fun ic =>
    { page_content := ic.2
      metadata :=
        { base := doc.metadata
          chunk_index := ic.1
          total_chunks := chunks.length } })

/-- `DocumentProcessor.chunk_documents` (rag_pipeline.py:109-135) with the
split function abstracted: concatenate the chunks of each document in input
order. -/
def chunk_documents_with (split : String → List String) (documents : List Document) :
    List Chunk :=
  (documents.map (chunkOne split)).flatten

/-- `DocumentProcessor.chunk_documents` (rag_pipeline.py:109-135) proper,
using the splitter owned by the processor. -/
def DocumentProcessor.chunk_documents (p : DocumentProcessor) (documents : List Document) :
    List Chunk :=
  chunk_documents_with p.text_splitter documents

/-- `VectorStore.similarity_search` (rag_pipeline.py:215-243) after the
external nearest-neighbor call: the underlying store returns scored
candidates (`search_results`, passed in here), and the method keeps exactly
those whose score satisfies `score >= similarity_threshold`. -/
def similarity_search (cfg : RAGConfig) (search_results : List (Chunk × ℚ)) :
    List (Chunk × ℚ) :=
  search_results.filter (fun ds => decide (cfg.similarity_threshold ≤ ds.2))

/-- A conversation memory for one session (langchain
`ConversationBufferMemory`, rag_pipeline.py:288-292): the full ordered
buffer of (question, answer) turns, oldest first. The buffer memory chosen
by the source is unbounded, and rag_pipeline.py passes it no bound:
`config.max_history_length` is never referenced outside its definition. -/
structure ConvMemory where
  turns : List (String × String) := []
  deriving DecidableEq, Repr

/-- Saving a finished turn into a `ConversationBufferMemory`: the chain
appends the (question, answer) pair to the buffer; no eviction occurs. -/
def ConvMemory.appendTurn (m : ConvMemory) (question answer : String) : ConvMemory :=
  { turns := m.turns ++ [(question, answer)] }

/-- Lookup in the `conversation_memory` dict (first entry with the key;
keys are unique by construction). -/
def findSession (memMap : List (String × ConvMemory)) (session_id : String) :
    Option ConvMemory :=
  (memMap.find? (fun p => p.1 == session_id)).map (·.2)

/-- Replace the value stored under an existing key of the dict. -/
def setSession (memMap : List (String × ConvMemory)) (session_id : String)
    (m : ConvMemory) : List (String × ConvMemory) :=
  memMap.map (fun p => if p.1 == session_id then (p.1, m) else p)

/-- The calls the pipeline issues to external services while handling one
query: the retrieval call (with its `k`) and the synthesis call (with the
question and the conversation history assembled into the request). -/
inductive ExtCall where
  | retrieval (question : String) (k : Nat)
  | synthesis (question : String) (history : List (String × String))
  deriving DecidableEq, Repr

/-- A source entry of the query result (rag_pipeline.py:336-342): a
200-character content preview plus provenance. -/
structure SourceView where
  content : String
  source : String
  file_name : String
  deriving DecidableEq, Repr

/-- The dictionary returned by `RAGPipeline.query` (rag_pipeline.py:347-352). -/
structure QueryResult where
  answer : String
  sources : List SourceView
  confidence : ℚ
  session_id : Option String
  deriving DecidableEq, Repr

/-- Errors a pipeline-level query can raise. Accessing
`self.vector_store.vectorstore.as_retriever()` when the store was never
created raises an attribute error on `None` (rag_pipeline.py:322). -/
inductive PipelineError where
  | attributeErrorNoneRetriever
  deriving DecidableEq, Repr

/-- Mutable state of a `RAGPipeline` (rag_pipeline.py:249-260): the
configuration, the optional vector store (`None` until created or loaded;
`some coll` holds the chunks of the collection, possibly empty), and the
session-keyed conversation memory dict. -/
structure RAGPipeline where
  config : RAGConfig := {}
  vectorstore : Option (List Chunk) := none
  conversation_memory : List (String × ConvMemory) := []
  deriving DecidableEq, Repr

/-- `RAGPipeline.get_or_create_memory` (rag_pipeline.py:277-294): return the memory of the session, creating an empty one (inserted at the end of the dict,
matching Python dict insertion order) if absent. Returns the memory and the
updated pipeline state. -/
def RAGPipeline.get_or_create_memory (st : RAGPipeline) (session_id : String) :
    ConvMemory × RAGPipeline :=
  match findSession st.conversation_memory session_id with
  | some m => (m, st)
  | none =>
    ({}, { st with
            conversation_memory := st.conversation_memory ++ [(session_id, {})] })

/-- Everything one call to `RAGPipeline.query` produces: the returned value
or error, the pipeline state afterwards, and the external calls issued. -/
structure QueryOutcome where
  result : Except PipelineError QueryResult
  state : RAGPipeline
  calls : List ExtCall
  deriving Repr

/-- `RAGPipeline.query` (rag_pipeline.py:296-352). External collaborators
are parameters: `retrieve coll question k` is the retriever built by
`as_retriever` with `search_kwargs k` over collection `coll`
(rag_pipeline.py:322-324), and `synthesize question docs history` is the
answer of the conversational chain from the question, the retrieved documents
and the chat history. With a `session_id` the chain reads the stored session buffer as history and saves the finished turn back into it
(langchain memory semantics); without one no memory is attached and the
history passed to synthesis is empty. -/
def RAGPipeline.query (retrieve : List Chunk → String → Nat → List Chunk)
    (synthesize : String → List Chunk → List (String × String) → String)
    (st : RAGPipeline) (question : String) (session_id : Option String) :
    QueryOutcome :=
  match st.vectorstore with
  | none => ⟨.error .attributeErrorNoneRetriever, st, []⟩
  | some coll =>
    let memAndSt : Option ConvMemory × RAGPipeline :=
      match session_id with
      | none => (none, st)
      | some sid =>
        let ms := st.get_or_create_memory sid
        (some ms.1, ms.2)
    let memory := memAndSt.1
    let st1 := memAndSt.2
    let source_documents := retrieve coll question st.config.top_k_results
    let history := match memory with
      | some m => m.turns
      | none => []
    let answer := synthesize question source_documents history
    let st2 := match session_id, memory with
      | some sid, some m =>
        { st1 with conversation_memory :=
            setSession st1.conversation_memory sid (m.appendTurn question answer) }
      | _, _ => st1
    let sources := source_documents.map (fun doc =>
      ({ content := String.mk (doc.page_content.toList.take 200) ++ "..."
         source := doc.metadata.base.source
         file_name := doc.metadata.base.file_name } : SourceView))
    ⟨.ok { answer := answer
           sources := sources
           confidence := calculate_confidence source_documents
           session_id := session_id },
     st2,
     [.retrieval question st.config.top_k_results, .synthesis question history]⟩

/-- `RAGPipeline.clear_session` (rag_pipeline.py:378-381): delete the entry of the session if present; the membership guard makes the operation a
no-op (not an error) on an absent session. -/
def RAGPipeline.clear_session (st : RAGPipeline) (session_id : String) : RAGPipeline :=
  if st.conversation_memory.any (fun p => p.1 == session_id) then
    { st with conversation_memory :=
        st.conversation_memory.filter (fun p => !(p.1 == session_id)) }
  else st

/-- `QueryRequest` (api.py:48-52): question plus optional session id and the
`include_sources` flag. The framework enforces the field constraints
`min_length=1, max_length=1000` on `question` before the handler body runs. -/
structure QueryRequest where
  question : String
  session_id : Option String := none
  include_sources : Bool := true
  deriving DecidableEq, Repr

/-- The validation the framework applies to `QueryRequest.question`
(api.py:50): non-empty and at most 1000 characters. -/
def QueryRequest.valid (req : QueryRequest) : Bool :=
  1 ≤ req.question.length && req.question.length ≤ 1000

/-- Errors the `/query` endpoint can return: the validation done by the framework
rejection (HTTP 422), the two 503 guards of `query_knowledge_base`
(api.py:188-195), and the catch-all 500 wrapping a pipeline exception
(api.py:216-218). -/
inductive ApiError where
  | validationError
  | pipelineNotInitialized
  | vectorstoreNotReady
  | queryProcessingFailed (e : PipelineError)
  deriving DecidableEq, Repr

/-- `QueryResponse` (api.py:71-77) without the wall-clock timestamp, which
is taken from the ambient clock and is irrelevant to every claim. -/
structure QueryResponse where
  answer : String
  sources : List SourceView
  confidence : ℚ
  session_id : Option String
  deriving DecidableEq, Repr

/-- Everything one request to the `/query` endpoint produces: response or
error, the pipeline state afterwards, and the external calls issued. -/
structure ApiOutcome where
  result : Except ApiError QueryResponse
  state : Option RAGPipeline
  calls : List ExtCall
  deriving Repr

/-- `query_knowledge_base` (api.py:174-218), with the framework-side request
validation in front: an invalid question is rejected before the handler
runs, so before any external call; the handler then returns 503 when the
global pipeline is absent or its vector store is `None`, and otherwise runs
`RAGPipeline.query`, dropping the sources when `include_sources` is false
(api.py:206). -/
def query_knowledge_base (retrieve : List Chunk → String → Nat → List Chunk)
    (synthesize : String → List Chunk → List (String × String) → String)
    (rag_pipeline : Option RAGPipeline) (req : QueryRequest) : ApiOutcome :=
  if ¬ req.valid then ⟨.error .validationError, rag_pipeline, []⟩
  else
    match rag_pipeline with
    | none => ⟨.error .pipelineNotInitialized, none, []⟩
    | some st =>
      match st.vectorstore with
      | none => ⟨.error .vectorstoreNotReady, some st, []⟩
      | some _ =>
        let out := st.query retrieve synthesize req.question req.session_id
        match out.result with
        | .error e => ⟨.error (.queryProcessingFailed e), some out.state, out.calls⟩
        | .ok r =>
          ⟨.ok { answer := r.answer
                 sources := if req.include_sources then r.sources else []
                 confidence := r.confidence
                 session_id := r.session_id },
           some out.state, out.calls⟩

/-- `RAGPipeline.load_existing` / `VectorStore.load_vectorstore`
(rag_pipeline.py:200-213, 273-275): attach a store holding whatever the
on-disk collection contains — possibly nothing. The store becomes non-`None`
even when the loaded collection is empty. -/
def RAGPipeline.load_existing (st : RAGPipeline) (diskContents : List Chunk) :
    RAGPipeline :=
  { st with vectorstore := some diskContents }

/-- Iterated queries: fold `RAGPipeline.query` over a list of questions,
threading the pipeline state, all with the same optional session id. -/
def queryTimes (retrieve : List Chunk → String → Nat → List Chunk)
    (synthesize : String → List Chunk → List (String × String) → String)
    (st : RAGPipeline) (questions : List String) (session_id : Option String) :
    RAGPipeline :=
  questions.foldl (fun s q => (RAGPipeline.query retrieve synthesize s q session_id).state) st

/-- A concrete nearest-neighbor searcher for witnesses: the first `k`
entries of the collection. -/
def retrieve0 : List Chunk → String → Nat → List Chunk :=
  fun coll _ k => coll.take k

/-- A concrete answer synthesizer for witnesses. -/
def synth0 : String → List Chunk → List (String × String) → String :=
  fun _ _ _ => "answer"

/-- A concrete document metadata value for witnesses. -/
def sampleMeta : DocMetadata :=
  { source := "04-testing.md"
    file_path := "/docs/04-testing.md"
    file_name := "04-testing.md"
    tokens := 3 }

/-- A concrete short document for witnesses. -/
def sampleDoc : Document :=
  { page_content := "TDD is a practice.", metadata := sampleMeta }

/-- A concrete chunk for witnesses. -/
def sampleChunk : Chunk :=
  { page_content := "TDD is a practice."
    metadata := { base := sampleMeta, chunk_index := 0, total_chunks := 1 } }

/-- A pipeline whose vector store was loaded from an empty on-disk
collection: reachable before any ingestion via `load_existing`
(api.py:132-138 calls it on startup). -/
def emptyStorePipeline : RAGPipeline :=
  RAGPipeline.load_existing {} []

/-! ## Theorems -/

/-- The branching of `_calculate_confidence` expressed on the length of the list. -/
theorem calculate_confidence_length (d : List Chunk) :
    calculate_confidence d =
      if d.length = 0 then 0
      else if 3 ≤ d.length then 0.9
      else if d.length = 2 then 0.7
      else 0.5 := by
  unfold calculate_confidence
  cases d with
  | nil =>
    simp
    norm_num
  | cons a t =>
    simp

/-- C1: the confidence computed by the query pipeline is a function of the
retrieved source count only — 0 sources give 0.0, exactly 1 gives 0.5,
exactly 2 gives 0.7, 3 or more give 0.9 — hence it is strictly increasing
in the source count over 0..3, always lies in [0, 1], and is independent of
the contents of the documents. -/
theorem calculate_confidence_spec :
    (∀ d1 d2 : List Chunk, d1.length = d2.length →
        calculate_confidence d1 = calculate_confidence d2) ∧
    calculate_confidence [] = 0 ∧
    (∀ d : List Chunk, d.length = 1 → calculate_confidence d = 0.5) ∧
    (∀ d : List Chunk, d.length = 2 → calculate_confidence d = 0.7) ∧
    (∀ d : List Chunk, 3 ≤ d.length → calculate_confidence d = 0.9) ∧
    (∀ d1 d2 : List Chunk, d1.length < d2.length → d2.length ≤ 3 →
        calculate_confidence d1 < calculate_confidence d2) ∧
    (∀ d : List Chunk, 0 ≤ calculate_confidence d ∧ calculate_confidence d ≤ 1) := by
  refine ⟨?_, ?_, ?_, ?_, ?_, ?_, ?_⟩
  · intro d1 d2 h
    rw [calculate_confidence_length, calculate_confidence_length, h]
  · rw [calculate_confidence_length]
    norm_num
  · intro d h
    rw [calculate_confidence_length, h]
    norm_num
  · intro d h
    rw [calculate_confidence_length, h]
    norm_num
  · intro d h
    rw [calculate_confidence_length, if_neg (by omega), if_pos h]
  · intro d1 d2 h1 h2
    rw [calculate_confidence_length, calculate_confidence_length]
    have h4 : d1.length = 0 ∧ d2.length = 1 ∨ d1.length = 0 ∧ d2.length = 2 ∨
        d1.length = 0 ∧ d2.length = 3 ∨ d1.length = 1 ∧ d2.length = 2 ∨
        d1.length = 1 ∧ d2.length = 3 ∨ d1.length = 2 ∧ d2.length = 3 := by omega
    rcases h4 with ⟨ha, hb⟩ | ⟨ha, hb⟩ | ⟨ha, hb⟩ | ⟨ha, hb⟩ | ⟨ha, hb⟩ | ⟨ha, hb⟩ <;>
      rw [ha, hb] <;> norm_num
  · intro d
    rw [calculate_confidence_length]
    split_ifs <;> norm_num

/-- Witness for C1: the hypotheses of `calculate_confidence_spec` are
satisfiable at concrete source lists of lengths 1, 2 and 3. -/
theorem calculate_confidence_spec_witness :
    calculate_confidence [sampleChunk] = 0.5 ∧
    calculate_confidence [sampleChunk, sampleChunk] = 0.7 ∧
    calculate_confidence [sampleChunk, sampleChunk, sampleChunk] = 0.9 :=
  ⟨calculate_confidence_spec.2.2.1 [sampleChunk] rfl,
   calculate_confidence_spec.2.2.2.1 [sampleChunk, sampleChunk] rfl,
   calculate_confidence_spec.2.2.2.2.1 [sampleChunk, sampleChunk, sampleChunk]
     (by decide)⟩

/-- C3: `similarity_search` returns exactly the candidates of the underlying
nearest-neighbor result whose score is at least `similarity_threshold`,
preserving their order (hence descending score order is preserved); with
threshold 0.7 and candidate scores [0.9, 0.75, 0.4] the result is exactly
the first two candidates in that order. -/
theorem similarity_search_spec :
    (∀ (cfg : RAGConfig) (rs : List (Chunk × ℚ)) (x : Chunk × ℚ),
        x ∈ similarity_search cfg rs ↔ x ∈ rs ∧ cfg.similarity_threshold ≤ x.2) ∧
    (∀ (cfg : RAGConfig) (rs : List (Chunk × ℚ)),
        List.Sublist (similarity_search cfg rs) rs) ∧
    (∀ (cfg : RAGConfig) (rs : List (Chunk × ℚ)),
        rs.Pairwise (fun a b => b.2 ≤ a.2) →
        (similarity_search cfg rs).Pairwise (fun a b => b.2 ≤ a.2)) ∧
    (∀ c1 c2 c3 : Chunk,
        similarity_search { similarity_threshold := 0.7 }
            [(c1, 0.9), (c2, 0.75), (c3, 0.4)] = [(c1, 0.9), (c2, 0.75)]) := by
  refine ⟨?_, ?_, ?_, ?_⟩
  · intro cfg rs x
    simp [similarity_search, List.mem_filter]
  · intro cfg rs
    exact List.filter_sublist rs
  · intro cfg rs h
    exact h.sublist (List.filter_sublist rs)
  · intro c1 c2 c3
    norm_num [similarity_search, List.filter]

/-- Witness for C3: the hypotheses of `similarity_search_spec` hold at a
concrete one-candidate result list. -/
theorem similarity_search_spec_witness :
    ((sampleChunk, (0.9 : ℚ)) ∈ similarity_search {} [(sampleChunk, 0.9)]) ∧
    (similarity_search {} [(sampleChunk, 0.9)]).Pairwise
      (fun a b => b.2 ≤ a.2) :=
  ⟨(similarity_search_spec.1 {} [(sampleChunk, 0.9)] (sampleChunk, 0.9)).mpr
      ⟨by simp, by norm_num⟩,
   similarity_search_spec.2.2.1 {} [(sampleChunk, 0.9)] (by simp)⟩

/-- C5: for a fixed chunking configuration, `chunk_documents` is a function
of the documents alone — two processors agreeing on `chunk_size` and
`chunk_overlap` produce identical chunk sequences on the same input, so two
runs on the same content are exactly reproducible. -/
theorem chunk_documents_deterministic :
    ∀ (p1 p2 : DocumentProcessor) (docs : List Document),
      p1.config.chunk_size = p2.config.chunk_size →
      p1.config.chunk_overlap = p2.config.chunk_overlap →
      p1.chunk_documents docs = p2.chunk_documents docs := by
  intro p1 p2 docs h1 h2
  unfold DocumentProcessor.chunk_documents DocumentProcessor.text_splitter
  rw [h1, h2]

/-- Witness for C5: two processors that differ in an unrelated configuration
field chunk a concrete document identically. -/
theorem chunk_documents_deterministic_witness :
    DocumentProcessor.chunk_documents { config := {} } [sampleDoc] =
      DocumentProcessor.chunk_documents { config := { top_k_results := 5 } }
        [sampleDoc] :=
  chunk_documents_deterministic { config := {} }
    { config := { top_k_results := 5 } } [sampleDoc] rfl rfl

/-- C6: a document strictly shorter than `chunk_size` is chunked into
exactly one chunk whose content is the whole document content and whose
metadata has `chunk_index = 0` and `total_chunks = 1`. -/
theorem chunk_short_document :
    ∀ (p : DocumentProcessor) (doc : Document),
      doc.page_content.length < p.config.chunk_size →
      p.chunk_documents [doc] =
        [{ page_content := doc.page_content
           metadata := { base := doc.metadata
                         chunk_index := 0
                         total_chunks := 1 } }] := by
  intro p doc h
  unfold DocumentProcessor.chunk_documents chunk_documents_with
  simp only [List.map_cons, List.map_nil, List.flatten_cons, List.flatten_nil,
    List.append_nil]
  unfold chunkOne DocumentProcessor.text_splitter splitText
  rw [if_pos (Nat.le_of_lt h)]
  rfl

/-- Witness for C6: the sample document is shorter than the default
`chunk_size` and is chunked whole. -/
theorem chunk_short_document_witness :
    DocumentProcessor.chunk_documents { config := {} } [sampleDoc] =
      [{ page_content := sampleDoc.page_content
         metadata := { base := sampleDoc.metadata
                       chunk_index := 0
                       total_chunks := 1 } }] :=
  chunk_short_document { config := {} } sampleDoc (by decide)

/-- C7: chunking emits the chunks of each document contiguously in input
order, and within one document the i-th produced chunk carries
`chunk_index = i`, `total_chunks` equal to the number of chunks produced
from that document (the same value on all of them), and all metadata fields
of the source document unchanged. Holds for every split function, so in
particular for the splitter of any processor. -/
theorem chunk_documents_structure :
    ∀ (split : String → List String) (docs : List Document),
      chunk_documents_with split docs =
        (docs.map (fun doc => chunkOne split doc)).flatten ∧
      ∀ doc : Document,
        (chunkOne split doc).length = (split doc.page_content).length ∧
        ∀ i : Nat, ∀ h : i < (chunkOne split doc).length,
          ((chunkOne split doc).get ⟨i, h⟩).metadata.chunk_index = i ∧
          ((chunkOne split doc).get ⟨i, h⟩).metadata.total_chunks =
            (split doc.page_content).length ∧
          ((chunkOne split doc).get ⟨i, h⟩).metadata.base = doc.metadata := by
  intro split docs
  refine ⟨rfl, ?_⟩
  intro doc
  constructor
  · simp [chunkOne]
  · intro i h
    simp [chunkOne]

/-- Witness for C7: the hypotheses hold for the identity-ish split function
on the sample document at index 0. -/
theorem chunk_documents_structure_witness :
    ((chunkOne (fun s => [s]) sampleDoc).get ⟨0, by decide⟩).metadata.chunk_index
        = 0 ∧
    ((chunkOne (fun s => [s]) sampleDoc).get ⟨0, by decide⟩).metadata.base =
      sampleDoc.metadata :=
  ⟨(((chunk_documents_structure (fun s => [s]) []).2 sampleDoc).2 0 (by decide)).1,
   (((chunk_documents_structure (fun s => [s]) []).2 sampleDoc).2 0 (by decide)).2.2⟩

/-- After filtering away every entry of a session key, no entry with that
key remains to be found by the membership test of `clear_session`. -/
theorem any_filter_not_key (l : List (String × ConvMemory)) (sid : String) :
    (l.filter (fun p => !(p.1 == sid))).any (fun p => p.1 == sid) = false := by
  refine Bool.eq_false_iff.mpr ?_
  simp [List.any_eq_true, List.mem_filter]

/-- C8: `clear_session` removes all state stored for the given session id,
is idempotent (clearing twice equals clearing once), and clearing a session
that does not exist leaves the store untouched — the membership guard makes
the operation total, so no error can arise. -/
theorem clear_session_spec :
    ∀ (st : RAGPipeline) (sid : String),
      findSession (st.clear_session sid).conversation_memory sid = none ∧
      (st.clear_session sid).clear_session sid = st.clear_session sid ∧
      (findSession st.conversation_memory sid = none → st.clear_session sid = st) := by
  intro st sid
  by_cases hc : st.conversation_memory.any (fun p => p.1 == sid) = true
  · refine ⟨?_, ?_, ?_⟩
    · unfold RAGPipeline.clear_session
      rw [if_pos hc]
      simp [findSession, List.find?_eq_none, List.mem_filter]
    · unfold RAGPipeline.clear_session
      rw [if_pos hc]
      simp only [any_filter_not_key]
      simp
    · intro hn
      exfalso
      rw [List.any_eq_true] at hc
      obtain ⟨x, hx, hx2⟩ := hc
      rw [findSession, Option.map_eq_none', List.find?_eq_none] at hn
      exact hn x hx hx2
  · have hst : st.clear_session sid = st := by
      unfold RAGPipeline.clear_session
      rw [if_neg hc]
    refine ⟨?_, ?_, fun _ => hst⟩
    · rw [hst]
      rw [findSession, Option.map_eq_none', List.find?_eq_none]
      intro x hx hx2
      exact hc (List.any_eq_true.mpr ⟨x, hx, hx2⟩)
    · rw [hst, hst]

/-- Witness for C8: clearing a session that was never created leaves the
fresh pipeline unchanged. -/
theorem clear_session_spec_witness :
    ({} : RAGPipeline).clear_session "s1" = {} :=
  (clear_session_spec {} "s1").2.2 rfl

/-- C9: a query request whose question is empty or longer than 1000
characters is rejected with a validation error before any external call is
issued (the outcome records no retrieval or synthesis call), while a
non-empty question of at most 1000 characters passes validation and is
never rejected with a validation error. -/
theorem query_request_validation :
    ∀ (retrieve : List Chunk → String → Nat → List Chunk)
      (synthesize : String → List Chunk → List (String × String) → String)
      (rag_pipeline : Option RAGPipeline) (req : QueryRequest),
      ((req.question.length = 0 ∨ 1000 < req.question.length) →
        query_knowledge_base retrieve synthesize rag_pipeline req =
          ⟨.error .validationError, rag_pipeline, []⟩) ∧
      (1 ≤ req.question.length → req.question.length ≤ 1000 →
        req.valid = true ∧
        (query_knowledge_base retrieve synthesize rag_pipeline req).result ≠
          .error .validationError) := by
  intro retrieve synthesize rag_pipeline req
  constructor
  · intro hbad
    have hv : req.valid = false := by
      simp only [QueryRequest.valid, Bool.and_eq_false_iff]
      rcases hbad with hbad | hbad
      · left
        simp [hbad]
      · right
        simp
        omega
    unfold query_knowledge_base
    rw [if_pos (by simp [hv])]
  · intro h1 h2
    have hv : req.valid = true := by
      simp only [QueryRequest.valid, Bool.and_eq_true, decide_eq_true_eq]
      omega
    refine ⟨hv, ?_⟩
    unfold query_knowledge_base
    rw [if_neg (by simp [hv])]
    cases rag_pipeline with
    | none => simp
    | some st =>
      cases hvs : st.vectorstore with
      | none => simp [hvs]
      | some coll => simp [hvs, RAGPipeline.query]

/-- Witness for C9: the empty question is rejected with no external call;
a short concrete question passes validation. -/
theorem query_request_validation_witness :
    query_knowledge_base retrieve0 synth0 none { question := "" } =
      ⟨.error .validationError, none, []⟩ ∧
    ({ question := "What is TDD?" } : QueryRequest).valid = true :=
  ⟨(query_request_validation retrieve0 synth0 none { question := "" }).1
      (Or.inl rfl),
   ((query_request_validation retrieve0 synth0 none
      { question := "What is TDD?" }).2 (by decide) (by decide)).1⟩

/-- C10: a pipeline query issued without a session id leaves the whole
pipeline state — in particular the conversation session store — unchanged
(no session created, no history modified), and every synthesis request it
assembles carries an empty conversation history (no session history read). -/
theorem query_without_session_frame :
    ∀ (retrieve : List Chunk → String → Nat → List Chunk)
      (synthesize : String → List Chunk → List (String × String) → String)
      (st : RAGPipeline) (question : String),
      (RAGPipeline.query retrieve synthesize st question none).state = st ∧
      (RAGPipeline.query retrieve synthesize st question none).calls.all
        (fun c => match c with
          | .synthesis _ history => history.isEmpty
          | _ => true) = true := by
  intro retrieve synthesize st question
  cases hvs : st.vectorstore with
  | none => simp [RAGPipeline.query, hvs]
  | some coll => simp [RAGPipeline.query, hvs]

/-- C4 counterexample: an initialized-but-empty vector store (reachable
before any ingestion by loading an empty on-disk collection) is not
rejected: the query succeeds and returns an empty-but-successful result
with no sources, refuting the claim that every query against an empty or
uninitialized store fails with a not-ready error. -/
theorem query_empty_store_returns_ok :
    (query_knowledge_base retrieve0 synth0 (some emptyStorePipeline)
        { question := "What is TDD?" }).result =
      .ok { answer := "answer"
            sources := []
            confidence := 0.0
            session_id := none } := by
  rfl

/-- C4 amended: a validated query issued while the vector store is
uninitialized (`None`) fails with the caller-visible 503 "vector store not
ready" error, issuing no external call and returning no result; an
initialized-but-empty store is not covered by this guard. -/
theorem query_uninitialized_not_ready :
    ∀ (retrieve : List Chunk → String → Nat → List Chunk)
      (synthesize : String → List Chunk → List (String × String) → String)
      (st : RAGPipeline) (req : QueryRequest),
      req.valid = true →
      st.vectorstore = none →
      query_knowledge_base retrieve synthesize (some st) req =
        ⟨.error .vectorstoreNotReady, some st, []⟩ := by
  intro retrieve synthesize st req hv hvs
  unfold query_knowledge_base
  rw [if_neg (by simp [hv])]
  simp [hvs]

/-- Witness for the amended C4: a fresh pipeline that never created or
loaded a vector store rejects a concrete validated query as not ready. -/
theorem query_uninitialized_not_ready_witness :
    query_knowledge_base retrieve0 synth0 (some {}) { question := "What is TDD?" } =
      ⟨.error .vectorstoreNotReady, some {}, []⟩ :=
  query_uninitialized_not_ready retrieve0 synth0 {} { question := "What is TDD?" }
    (by decide) rfl

/-- C2 (code bug demonstration): under the default configuration
(`max_history_length = 5`) six queries against the same session leave six
turns in the stored history — the buffer memory chosen by the source never
evicts and `config.max_history_length` is never consulted, so the bounded
most-recent-N semantics claimed by the spec does not hold. -/
theorem six_turns_all_retained :
    emptyStorePipeline.config.max_history_length = 5 ∧
    (findSession (queryTimes retrieve0 synth0 emptyStorePipeline
          ["q1", "q2", "q3", "q4", "q5", "q6"] (some "s1")).conversation_memory
        "s1").map (fun m => m.turns.length) = some 6 := by
  constructor
  · rfl
  · rfl

end RAG
